import Mathlib

/-!
Shallow embedding of the core of `fastled-wasm-server` (session manager,
compile pipeline, library-rebuild streamer, upload-size middleware) together
with theorems settling the specification claims about it.

Conventions of the embedding:
* wall-clock times (`time.time()` floats) are modelled as integers, since the
  code only subtracts and compares them;
* the 64-bit random session ids are modelled as naturals; the rejection-sampling
  loop of `generate_session_id` / `_create_new_session_locked` is modelled by a
  `fresh` parameter together with the loop's exit condition (the candidate is
  not currently registered);
* the registry dict is an association list queried by `lookupSession` (first
  match wins, as a dict does);
* external effects (toolchain subprocess, cache I/O, lock) are recorded as an
  explicit event trace.
-/

namespace FastledWasm

/-- Record `SessionInfo` of `session_manager.py` (lines 11-17). -/
structure SessionInfo where
  session_id : Nat
  last_used : Int
  created : Int
deriving DecidableEq, Repr

/-- State of `SessionManager`: the registry `_sessions` plus the two lease
parameters `_worker_lease_duration` and `_gc_grace_period`. -/
structure SMState where
  sessions : List (Nat × SessionInfo)
  worker_lease : Int
  gc_grace : Int
deriving DecidableEq, Repr

/-- Dict lookup `self._sessions.get(session_id)`. -/
def lookupSession : List (Nat × SessionInfo) → Nat → Option SessionInfo
  | [], _ => none
  | (k, v) :: rest, id => if k = id then some v else lookupSession rest id

/-- Registration of a fresh id performed by `_create_new_session_locked`
(lines 129-139): `created = last_used = now`. -/
def registerSession (sessions : List (Nat × SessionInfo)) (fresh : Nat)
    (now : Int) : List (Nat × SessionInfo) :=
  (fresh, ⟨fresh, now, now⟩) :: sessions

/-- The mutation `session.last_used = current_time` (line 126). -/
def touchSession : List (Nat × SessionInfo) → Nat → Int → List (Nat × SessionInfo)
  | [], _, _ => []
  | (k, v) :: rest, id, now =>
      (k, if k = id then { v with last_used := now } else v) :: touchSession rest id now

/-- `SessionManager.get_or_create_session` (session_manager.py lines 84-127).
`fresh` stands for the id produced by `_create_new_session_locked`; theorems
using freshness carry the loop's exit condition
`lookupSession st.sessions fresh = none` as a hypothesis. -/
def get_or_create_session (st : SMState) (now : Int) (hint : Option Nat)
    (fresh : Nat) : (Nat × Bool) × SMState :=
  match hint with
  | none =>
      ((fresh, false), { st with sessions := registerSession st.sessions fresh now })
  | some h =>
      match lookupSession st.sessions h with
      | none =>
          ((fresh, false), { st with sessions := registerSession st.sessions fresh now })
      | some s =>
          if now - s.last_used > st.worker_lease then
            ((fresh, false), { st with sessions := registerSession st.sessions fresh now })
          else
            ((h, true), { st with sessions := touchSession st.sessions h now })

/-- `SessionManager.generate_session_id` (lines 68-82), with the sampling loop
modelled by the `fresh` parameter. -/
def generate_session_id (st : SMState) (now : Int) (fresh : Nat) : Nat × SMState :=
  (fresh, { st with sessions := registerSession st.sessions fresh now })

/-- Dict produced by `SessionManager.get_session_info` (lines 195-220),
restricted to the fields the server consults. -/
structure SessionInfoView where
  found : Bool
  message : String
  within_worker_lease : Bool
deriving DecidableEq, Repr

/-- `SessionManager.get_session_info` (session_manager.py lines 195-220). -/
def get_session_info (st : SMState) (now : Int) (id : Option Nat) : SessionInfoView :=
  match id with
  | none => ⟨false, "No session ID provided", false⟩
  | some i =>
      match lookupSession st.sessions i with
      | none => ⟨false, "Session " ++ toString i ++ " not found", false⟩
      | some s => ⟨true, "", decide (now - s.last_used < st.worker_lease)⟩

/-- Session handling of the `/compile/wasm` endpoint (server.py lines
444-447 and 477-479): `get_session_info` is consulted, a fresh id is
generated only when the `session_id` header is absent, and the resulting id
is what the `X-Session-Id` response header carries. -/
def compile_wasm_session (st : SMState) (now : Int) (session_id : Option Nat)
    (fresh : Nat) : (Nat × SessionInfoView) × SMState :=
  let info := get_session_info st now session_id
  match session_id with
  | none =>
      let p := generate_session_id st now fresh
      ((p.1, info), p.2)
  | some s => ((s, info), st)

/-- Counters of `CompilerStats` (types.py lines 5-9). -/
structure CompilerStats where
  compile_count : Nat
  compile_failures : Nat
  compile_successes : Nat
deriving DecidableEq, Repr

/-- Relative path of a file inside the extracted sketch tree. -/
abbrev FPath := String

/-- Character-wise lowering, the model of Python `str.lower()` (the build
modes are ASCII). -/
def strToLower (s : String) : String := ⟨s.data.map Char.toLower⟩

/-- Suffix test, the model of Python `str.endswith`. -/
def strEndsWith (s suffix : String) : Bool :=
  List.isSuffixOf suffix.data s.data

def fileNameAux (cur : List Char) : List Char → List Char
  | [] => cur
  | c :: rest => if c = '/' then fileNameAux [] rest else fileNameAux (cur ++ [c]) rest

/-- Final path component, the name `rglob` patterns are matched against. -/
def fileName (p : FPath) : String := ⟨fileNameAux [] p.data⟩

/-- Deletion of `*platformio.ini` files after extraction (server_compile.py
lines 321-326): `rglob("*platformio.ini")` matches every entry whose name
ends with `platformio.ini`; each match is unlinked, keeping the rest. -/
def stripPlatformioFiles (files : List FPath) : List FPath :=
  files.filter (fun p => !strEndsWith (fileName p) "platformio.ini")

/-- Observable actions of one `/compile/wasm` request, in the order the
pipeline performs them. -/
inductive Ev where
  | stripFiles (removed : List FPath)
  | fingerprint (files : List FPath)
  | updateSrc
  | clearCache
  | cacheGet (key : String)
  | returnCached
  | lockAcquire
  | runCompiler
  | lockRelease
  | cachePut (key : String)
deriving DecidableEq, Repr

/-- Environment of one `_compile_source` run: the entries `iterdir()` sees in
the source staging directory, and the oracle outcomes of the external steps
(toolchain exit code, presence of the `fastled_js` output directory, zip
packaging error). -/
structure SourceEnv where
  temp_src_dir : String
  topLevelEntries : List String
  stdout : String
  compilerExitCode : Int
  fastledJsExists : Bool
  zipError : Option String
deriving DecidableEq, Repr

/-- Result of `_compile_source`: an `HTTPException` raised, an
`HTTPException` returned (re-raised by the caller), or a `CompileResult`. -/
inductive CompileOutcome where
  | raised (status : Nat) (detail : String)
  | httpError (status : Nat) (detail : String)
  | ok (filename : String)
deriving DecidableEq, Repr

def only_quick_reject_detail : String :=
  "Only quick builds are allowed in this version."

/-- `_compile_source` (server_compile.py lines 68-246): quick-only guard
(raised before any counter moves), `compile_count` increment, empty staging
directory check, then the lock-protected toolchain run with the
failure/success counter updates, the `fastled_js` lookup, and zip packaging.
Returns the outcome, the updated stats and the event trace. -/
def compileSource (build_mode : String) (only_quick_builds : Bool)
    (env : SourceEnv) (stats : CompilerStats) :
    CompileOutcome × CompilerStats × List Ev :=
  if strToLower build_mode ≠ "quick" ∧ only_quick_builds then
    (.raised 400 only_quick_reject_detail, stats, [])
  else
    let stats := { stats with compile_count := stats.compile_count + 1 }
    match env.topLevelEntries with
    | [] =>
        (.httpError 500 ("No files found in extracted directory: " ++ env.temp_src_dir),
          stats, [])
    | srcDir :: _ =>
        if env.compilerExitCode ≠ 0 then
          (.httpError 400
              ("Compilation failed with return code "
                ++ toString env.compilerExitCode ++ ":\n" ++ env.stdout),
            { stats with compile_failures := stats.compile_failures + 1 },
            [.lockAcquire, .runCompiler, .lockRelease])
        else
          let stats := { stats with compile_successes := stats.compile_successes + 1 }
          if !env.fastledJsExists then
            (.httpError 500
                ("Compilation artifacts not found at " ++ srcDir ++ "/fastled_js"),
              stats, [.lockAcquire, .runCompiler, .lockRelease])
          else
            match env.zipError with
            | some e =>
                (.httpError 500 ("Failed to create zip file: " ++ e), stats,
                  [.lockAcquire, .runCompiler, .lockRelease])
            | none =>
                (.ok "fastled_output.zip", stats,
                  [.lockAcquire, .runCompiler, .lockRelease])

/-- Request data of `server_compile` (server_compile.py lines 249-266) that
the control flow depends on. -/
structure CompileRequest where
  build : Option String
  profile : Option String
  fileProvided : Bool
  filename : Option String
  use_sketch_cache : Bool
  only_quick_builds : Bool
  allow_libcompile : Bool
  strict : Bool
  no_platformio : Bool
  native : Bool

/-- Environment of one `server_compile` run: the files the archive extracts
to, the project hasher (`generate_hash_of_project_files`, `none` when it
throws), the shared-source mirror state, the `update_src` outcome, the
sketch-cache contents (key to blob tag), and the `_compile_source` oracles. -/
structure PipelineEnv where
  extractedFiles : List FPath
  hashFn : List FPath → Option String
  volumeSrcExists : Bool
  updateFailed : Bool
  filesChanged : List FPath
  cache : List (String × Nat)
  srcEnv : SourceEnv

/-- Lookup in the sketch cache (`DiskLRUCache.get_bytes`). -/
def lookupCache : List (String × Nat) → String → Option Nat
  | [], _ => none
  | (k, v) :: rest, key => if k = key then some v else lookupCache rest key

/-- Sketch-cache contents after the `allow_libcompile` block (server_compile.py
lines 335-348): the cache is cleared exactly when the shared-source mirror
exists, the updater succeeded and reported changed files. -/
def afterLibCompileCache (req : CompileRequest) (env : PipelineEnv) :
    List (String × Nat) :=
  if req.allow_libcompile ∧ env.volumeSrcExists then
    if ¬ env.updateFailed ∧ env.filesChanged ≠ [] then [] else env.cache
  else env.cache

/-- Cache entry consulted by the fast path (server_compile.py lines 350-354):
present only when hashing succeeded and the sketch cache is enabled. -/
def cacheEntry (req : CompileRequest) (env : PipelineEnv) : Option Nat :=
  match env.hashFn (stripPlatformioFiles env.extractedFiles) with
  | some h => if req.use_sketch_cache then lookupCache (afterLibCompileCache req env) h else none
  | none => none

/-- Response of `server_compile`: a 200 `FileResponse` carrying the artifact,
or an `HTTPException` with its status. -/
inductive ServerResult where
  | response (status : Nat) (filename : String)
  | error (status : Nat) (detail : String)
deriving DecidableEq, Repr

/-- Events of the pipeline up to the cache fast-path decision
(server_compile.py lines 315-354): `platformio.ini` stripping, fingerprinting
over the stripped tree, the conditional library update and cache clear, and
the cache probe. -/
def preEvents (req : CompileRequest) (env : PipelineEnv) : List Ev :=
  [.stripFiles (env.extractedFiles.filter
      (fun p => strEndsWith (fileName p) "platformio.ini")),
   .fingerprint (stripPlatformioFiles env.extractedFiles)]
  ++ (if req.allow_libcompile ∧ env.volumeSrcExists then
        if ¬ env.updateFailed ∧ env.filesChanged ≠ [] then
          [.updateSrc, .clearCache]
        else [.updateSrc]
      else [])
  ++ (match env.hashFn (stripPlatformioFiles env.extractedFiles) with
      | some h => if req.use_sketch_cache then [.cacheGet h] else []
      | none => [])

/-- Cache insert after a successful build (server_compile.py lines 402-406). -/
def putEvents (req : CompileRequest) (env : PipelineEnv) : List Ev :=
  match env.hashFn (stripPlatformioFiles env.extractedFiles) with
  | some h => if req.use_sketch_cache then [.cachePut h] else []
  | none => []

/-- `server_compile` (server_compile.py lines 249-436): build-mode and upload
validation, extraction, `platformio.ini` stripping, fingerprinting, the
conditional library update and cache clear, the cache fast path, and the
`_compile_source` invocation with the final cache insert. -/
def server_compile (req : CompileRequest) (env : PipelineEnv)
    (stats : CompilerStats) : ServerResult × CompilerStats × List Ev :=
  if ¬ (req.build.map strToLower = some "quick"
      ∨ req.build.map strToLower = some "release"
      ∨ req.build.map strToLower = some "debug"
      ∨ req.build.map strToLower = none) then
    (.error 400
        "Invalid build mode. Must be one of quick, release, or debug or omitted",
      stats, [])
  else if ¬ req.fileProvided then (.error 400 "No file uploaded.", stats, [])
  else
    match req.filename with
    | none => (.error 400 "No filename provided.", stats, [])
    | some fname =>
        if ¬ strEndsWith fname ".zip" then
          (.error 400 "Uploaded file must be a zip archive.", stats, [])
        else
          match cacheEntry req env with
          | some _ =>
              (.response 200 "fastled_output.zip", stats,
                preEvents req env ++ [.returnCached])
          | none =>
              match compileSource ((req.build.map strToLower).getD "quick")
                  req.only_quick_builds env.srcEnv stats with
              | (.raised st d, stats2, tr) =>
                  (.error st d, stats2, preEvents req env ++ tr)
              | (.httpError st d, stats2, tr) =>
                  (.error st d, stats2, preEvents req env ++ tr)
              | (.ok fn, stats2, tr) =>
                  (.response 200 fn, stats2,
                    preEvents req env ++ tr ++ putEvents req env)

/-- Shared bearer token `_AUTH_TOKEN` (server.py line 60). -/
def AUTH_TOKEN : String := "oBOT5jbsO4ztgrpNsQwlmFLIKB"

/-- Compile portion of the `/compile/wasm` handler (server.py lines 430-475):
the handler declares no `authorization` parameter, so the header value never
reaches the computation (the token check in server_compile.py lines 283-284
is commented out). -/
def compile_wasm_endpoint (_authorization : Option String)
    (req : CompileRequest) (env : PipelineEnv) (stats : CompilerStats) :
    ServerResult × CompilerStats × List Ev :=
  server_compile req env stats

/-- Auth guard of `/compile/libfastled` (server.py lines 491-492, with
`_TEST = False`): any authorization value other than the token yields 401. -/
def compile_libfastled_auth (authorization : Option String) : Option Nat :=
  if authorization ≠ some AUTH_TOKEN then some 401 else none

/-- Outcome of the body of one `/compile/libfastled` stream (server.py lines
519-607): dry run; source update streamed to completion; the updater raised
(inner `except`, exit code 1); or an exception elsewhere in the body (outer
`except`, exit code -1, with the events already yielded in `pre`). -/
inductive StreamOutcome where
  | dryRun
  | updateOk (progress : List String) (duration : String)
  | updateRaise (progress : List String) (errMsg : String) (details : List String)
  | outerError (pre : List String) (errMsg : String) (stackTrace : String)

/-- Trailer emitted by the `finally` block (server.py lines 594-607),
including the exit-code to HTTP-status mapping. -/
def trailerEvents (exitCode : Int) (status : String) : List String :=
  ["data: COMPILATION_COMPLETE\n",
   "data: EXIT_CODE: " ++ toString exitCode ++ "\n",
   "data: STATUS: " ++ status ++ "\n",
   "data: HTTP_STATUS: "
     ++ toString (if exitCode = 0 then (200 : Nat) else if exitCode = 1 then 400 else 500)
     ++ "\n"]

/-- `stream_compilation` (server.py lines 519-607) as the list of `data:`
events it yields for a given body outcome. -/
def stream_compilation (buildMode : String) (o : StreamOutcome) : List String :=
  match o with
  | .dryRun =>
      ["data: Using BUILD_MODE: " ++ buildMode ++ "\n",
       "data: DRY RUN MODE: Will skip actual compilation\n",
       "data: Would compile libfastled with BUILD_MODE=" ++ buildMode ++ "\n"]
      ++ trailerEvents 0 "SUCCESS"
  | .updateOk progress duration =>
      ["data: Using BUILD_MODE: " ++ buildMode ++ "\n",
       "data: Checking for source file changes...\n"]
      ++ progress.map (fun m => "data: " ++ m ++ "\n")
      ++ ["data: Source update completed in " ++ duration ++ " seconds\n",
          "data: LibFastLED compilation completed successfully!\n"]
      ++ trailerEvents 0 "SUCCESS"
  | .updateRaise progress errMsg details =>
      ["data: Using BUILD_MODE: " ++ buildMode ++ "\n",
       "data: Checking for source file changes...\n"]
      ++ progress.map (fun m => "data: " ++ m ++ "\n")
      ++ ["data: ERROR: Source update or compilation failed: " ++ errMsg ++ "\n"]
      ++ details.map (fun d => "data: " ++ d ++ "\n")
      ++ trailerEvents 1 "FAIL"
  | .outerError pre errMsg stackTrace =>
      pre
      ++ ["data: ERROR: " ++ errMsg ++ "\n",
          "data: Stack trace: " ++ stackTrace ++ "\n"]
      ++ trailerEvents (-1) "FAIL"

/-- One HTTP request as the upload-size middleware sees it: method, URL path,
and the declared `content-length` header. -/
structure HttpRequest where
  method : String
  urlPath : String
  contentLength : Option Nat
deriving DecidableEq, Repr

/-- Middleware verdict: an immediate response (the body is never read), or
forwarding the unchanged request to `call_next`. -/
inductive MWResult where
  | reject (status : Nat) (body : String)
  | forward
deriving DecidableEq, Repr

/-- Substring test on character lists, the model of Python `sub in s`. -/
def listContainsSub (sub : List Char) : List Char → Bool
  | [] => List.isPrefixOf sub []
  | c :: rest => List.isPrefixOf sub (c :: rest) || listContainsSub sub rest

/-- Model of Python `sub in s` for strings. -/
def containsSubstr (s sub : String) : Bool := listContainsSub sub.data s.data

/-- The 413 body (upload_size_middleware.py line 22). -/
def uploadLimitMessage (maxUpload : Nat) : String :=
  "File size exceeds " ++ toString maxUpload
    ++ " byte limit, for large assets please put them in data/ directory to avoid uploading them to the server."

/-- `UploadSizeMiddleware.dispatch` (upload_size_middleware.py lines 11-24):
POST requests whose path contains `/compile/wasm` and whose declared
`content-length` exceeds the limit are rejected with 413 before the body is
read; everything else is forwarded unchanged. -/
def uploadSizeDispatch (maxUpload : Nat) (req : HttpRequest) : MWResult :=
  if req.method = "POST" ∧ containsSubstr req.urlPath "/compile/wasm" then
    match req.contentLength with
    | some n =>
        if n > maxUpload then .reject 413 (uploadLimitMessage maxUpload)
        else .forward
    | none => .forward
  else .forward

theorem lookupSession_registerSession_self (s : List (Nat × SessionInfo))
    (f : Nat) (now : Int) :
    lookupSession (registerSession s f now) f = some ⟨f, now, now⟩ := by
  simp [registerSession, lookupSession]

theorem lookupSession_touchSession (s : List (Nat × SessionInfo)) (id : Nat)
    (now : Int) :
    lookupSession (touchSession s id now) id
      = (lookupSession s id).map (fun v => { v with last_used := now }) := by
  induction s with
  | nil => rfl
  | cons kv rest ih =>
      obtain ⟨k, v⟩ := kv
      by_cases h : k = id
      · simp [touchSession, lookupSession, h]
      · simpa [touchSession, lookupSession, h] using ih

/-- C1: `get_or_create_session(hint)` returns a freshly generated id with
`reused = false` when the hint is absent, unregistered, or older than the
worker lease; otherwise it touches the record's `last_used` to `now` and
returns `(hint, true)`. -/
theorem c1_get_or_create_session_spec (st : SMState) (now : Int) (fresh : Nat)
    (hfresh : lookupSession st.sessions fresh = none) :
    ((get_or_create_session st now none fresh).1 = (fresh, false)
      ∧ lookupSession (get_or_create_session st now none fresh).2.sessions fresh
          = some ⟨fresh, now, now⟩)
    ∧ (∀ h, lookupSession st.sessions h = none →
        (get_or_create_session st now (some h) fresh).1 = (fresh, false)
        ∧ lookupSession (get_or_create_session st now (some h) fresh).2.sessions fresh
            = some ⟨fresh, now, now⟩)
    ∧ (∀ h s, lookupSession st.sessions h = some s →
        now - s.last_used > st.worker_lease →
        (get_or_create_session st now (some h) fresh).1 = (fresh, false)
        ∧ lookupSession (get_or_create_session st now (some h) fresh).2.sessions fresh
            = some ⟨fresh, now, now⟩)
    ∧ (∀ h s, lookupSession st.sessions h = some s →
        ¬ (now - s.last_used > st.worker_lease) →
        (get_or_create_session st now (some h) fresh).1 = (h, true)
        ∧ lookupSession (get_or_create_session st now (some h) fresh).2.sessions h
            = some { s with last_used := now }) := by
  refine ⟨⟨rfl, by simp [get_or_create_session, lookupSession_registerSession_self]⟩, ?_, ?_, ?_⟩
  · intro h hh
    simp [get_or_create_session, hh, lookupSession_registerSession_self]
  · intro h s hs hold
    simp [get_or_create_session, hs, hold, lookupSession_registerSession_self]
  · intro h s hs hyoung
    simp [get_or_create_session, hs, hyoung, lookupSession_touchSession]

/-- Witness for C1 at a concrete registry: the hint `5`, last used at time
`100` and queried at time `200` (within the 1200-second lease), is reused;
the fresh candidate `7` is unregistered. -/
theorem c1_get_or_create_session_spec_witness :
    lookupSession [(5, ⟨5, 100, 100⟩)] 7 = none
    ∧ (get_or_create_session ⟨[(5, ⟨5, 100, 100⟩)], 1200, 2400⟩ 200 (some 5) 7).1
        = (5, true) :=
  ⟨by decide,
    ((c1_get_or_create_session_spec ⟨[(5, ⟨5, 100, 100⟩)], 1200, 2400⟩ 200 7
        (by decide)).2.2.2 5 ⟨5, 100, 100⟩ (by decide) (by decide)).1⟩

/-- C2 counterexample: with an empty registry and the unregistered hint `5`,
the endpoint's `X-Session-Id` equals the hint (it is echoed back, not
rotated), contradicting the claim that it differs from an unknown hint. -/
theorem c2_session_echo_counterexample :
    (compile_wasm_session ⟨[], 1200, 2400⟩ 0 (some 5) 7).1.1 = 5
    ∧ (compile_wasm_session ⟨[], 1200, 2400⟩ 0 (some 5) 7).1.2
        = ⟨false, "Session 5 not found", false⟩ := by
  constructor <;> rfl

/-- C2 amended: the `/compile/wasm` endpoint echoes a present `session_id`
header unchanged in `X-Session-Id` (registered or not) and leaves the
registry untouched; a fresh id is generated only when the header is absent;
`X-Session-Info.exists` reports whether the hint was registered.
`get_or_create_session` is not consulted by the endpoint. -/
theorem c2_session_header_amended (st : SMState) (now : Int) (s : Nat) (fresh : Nat) :
    (compile_wasm_session st now (some s) fresh).1.1 = s
    ∧ (compile_wasm_session st now (some s) fresh).2 = st
    ∧ (compile_wasm_session st now none fresh).1.1 = fresh
    ∧ (compile_wasm_session st now (some s) fresh).1.2.found
        = (lookupSession st.sessions s).isSome := by
  refine ⟨rfl, rfl, rfl, ?_⟩
  cases hs : lookupSession st.sessions s <;>
    simp [compile_wasm_session, get_session_info, hs]

theorem compileSource_trace_cases (b : String) (oq : Bool) (env : SourceEnv)
    (stats : CompilerStats) :
    (compileSource b oq env stats).2.2 = []
    ∨ (compileSource b oq env stats).2.2
        = [Ev.lockAcquire, Ev.runCompiler, Ev.lockRelease] := by
  unfold compileSource
  repeat' split
  all_goals simp

theorem preEvents_no_lock_events (req : CompileRequest) (env : PipelineEnv) :
    Ev.lockAcquire ∉ preEvents req env
    ∧ Ev.runCompiler ∉ preEvents req env
    ∧ Ev.returnCached ∉ preEvents req env := by
  unfold preEvents
  repeat' split
  all_goals simp

theorem putEvents_no_lock_events (req : CompileRequest) (env : PipelineEnv) :
    Ev.lockAcquire ∉ putEvents req env
    ∧ Ev.runCompiler ∉ putEvents req env
    ∧ Ev.returnCached ∉ putEvents req env := by
  unfold putEvents
  repeat' split
  all_goals simp

theorem server_compile_trace_total (req : CompileRequest) (env : PipelineEnv)
    (stats : CompilerStats) :
    (server_compile req env stats).2.2 = []
    ∨ ∃ suffix, (server_compile req env stats).2.2 = preEvents req env ++ suffix
        ∧ (suffix = [Ev.returnCached]
          ∨ suffix = (compileSource ((req.build.map strToLower).getD "quick")
              req.only_quick_builds env.srcEnv stats).2.2
          ∨ suffix = (compileSource ((req.build.map strToLower).getD "quick")
              req.only_quick_builds env.srcEnv stats).2.2 ++ putEvents req env) := by
  unfold server_compile
  repeat' split
  · exact Or.inl rfl
  · exact Or.inl rfl
  · exact Or.inl rfl
  · exact Or.inl rfl
  · exact Or.inr ⟨[Ev.returnCached], rfl, Or.inl rfl⟩
  next st d stats2 tr hr =>
    exact Or.inr ⟨tr, rfl, Or.inr (Or.inl (by rw [hr]))⟩
  next st d stats2 tr hr =>
    exact Or.inr ⟨tr, rfl, Or.inr (Or.inl (by rw [hr]))⟩
  next fn stats2 tr hr =>
    exact Or.inr ⟨tr ++ putEvents req env, by simp, Or.inr (Or.inr (by rw [hr]))⟩

/-- C5: no execution answered from the sketch cache acquires the build lock
(a trace containing `returnCached` contains no `lockAcquire`), and the lock
is acquired exactly on the traces that invoke the toolchain subprocess. -/
theorem c5_cache_hit_no_lock (req : CompileRequest) (env : PipelineEnv)
    (stats : CompilerStats) :
    (Ev.returnCached ∈ (server_compile req env stats).2.2 →
      Ev.lockAcquire ∉ (server_compile req env stats).2.2)
    ∧ (Ev.lockAcquire ∈ (server_compile req env stats).2.2
      ↔ Ev.runCompiler ∈ (server_compile req env stats).2.2) := by
  obtain ⟨hp1, hp2, hp3⟩ := preEvents_no_lock_events req env
  obtain ⟨hq1, hq2, hq3⟩ := putEvents_no_lock_events req env
  rcases server_compile_trace_total req env stats with h | ⟨suffix, h, hsfx⟩
  · rw [h]; simp
  · rw [h]
    rcases hsfx with hs | hs | hs <;> subst hs
    · simp [List.mem_append, hp1, hp2, hp3]
    · rcases compileSource_trace_cases ((req.build.map strToLower).getD "quick")
          req.only_quick_builds env.srcEnv stats with hcs | hcs <;>
        rw [hcs] <;> simp [List.mem_append, hp1, hp2, hp3]
    · rcases compileSource_trace_cases ((req.build.map strToLower).getD "quick")
          req.only_quick_builds env.srcEnv stats with hcs | hcs <;>
        rw [hcs] <;> simp [List.mem_append, hp1, hp2, hp3, hq1, hq2, hq3]

/-- Witness for C5: a concrete request whose sketch cache holds the
fingerprint, so the response is served from the cache and the trace never
acquires the build lock. -/
theorem c5_cache_hit_no_lock_witness :
    Ev.returnCached ∈ (server_compile
        ⟨some "quick", none, true, some "a.zip", true, false, false, false, false, false⟩
        ⟨[], fun _ => some "h", false, false, [], [("h", 1)],
          ⟨"/t", ["s"], "", 0, true, none⟩⟩ ⟨0, 0, 0⟩).2.2
    ∧ Ev.lockAcquire ∉ (server_compile
        ⟨some "quick", none, true, some "a.zip", true, false, false, false, false, false⟩
        ⟨[], fun _ => some "h", false, false, [], [("h", 1)],
          ⟨"/t", ["s"], "", 0, true, none⟩⟩ ⟨0, 0, 0⟩).2.2 :=
  ⟨by decide,
    (c5_cache_hit_no_lock
        ⟨some "quick", none, true, some "a.zip", true, false, false, false, false, false⟩
        ⟨[], fun _ => some "h", false, false, [], [("h", 1)],
          ⟨"/t", ["s"], "", 0, true, none⟩⟩ ⟨0, 0, 0⟩).1 (by decide)⟩

theorem compileSource_stats_cases (b : String) (oq : Bool) (env : SourceEnv)
    (stats : CompilerStats) :
    ((strToLower b ≠ "quick" ∧ oq = true)
        ∧ (compileSource b oq env stats).2.1 = stats)
    ∨ (¬ (strToLower b ≠ "quick" ∧ oq = true)
        ∧ ((compileSource b oq env stats).2.1
              = { stats with compile_count := stats.compile_count + 1 }
          ∨ (compileSource b oq env stats).2.1
              = { compile_count := stats.compile_count + 1,
                  compile_failures := stats.compile_failures + 1,
                  compile_successes := stats.compile_successes }
          ∨ (compileSource b oq env stats).2.1
              = { compile_count := stats.compile_count + 1,
                  compile_failures := stats.compile_failures,
                  compile_successes := stats.compile_successes + 1 })) := by
  obtain ⟨tsd, entries, so, rc, fj, ze⟩ := env
  by_cases hg : strToLower b ≠ "quick" ∧ oq = true
  · exact Or.inl ⟨hg, by simp [compileSource, hg]⟩
  · refine Or.inr ⟨hg, ?_⟩
    unfold compileSource
    rw [if_neg hg]
    cases entries with
    | nil => exact Or.inl rfl
    | cons srcDir rest =>
        by_cases hc : rc ≠ 0
        · refine Or.inr (Or.inl ?_)
          simp [hc]
        · refine Or.inr (Or.inr ?_)
          cases hj : fj <;> cases ze <;> simp [hc, hj]

/-- C9 counterexample: on a quick-only server a `release` request makes
`_compile_source` raise the 400 before any counter moves, so that call does
not increment `compile_count` (here it stays at 3). -/
theorem c9_stats_counterexample :
    compileSource "release" true ⟨"/tmp/src", ["sketch"], "", 0, true, none⟩ ⟨3, 1, 2⟩
      = (.raised 400 only_quick_reject_detail, ⟨3, 1, 2⟩, [])
    ∧ (compileSource "release" true ⟨"/tmp/src", ["sketch"], "", 0, true, none⟩
        ⟨3, 1, 2⟩).2.1.compile_count ≠ 3 + 1 := by
  constructor <;> decide

/-- C9 amended: every execution of `_compile_source` preserves
`compile_count ≥ compile_failures + compile_successes` and never decreases a
counter; every execution past the quick-only guard increments
`compile_count` by one and at most one of the other two counters, while the
quick-only rejection (raised before any increment) leaves all three counters
unchanged. -/
theorem c9_stats_amended (b : String) (oq : Bool) (env : SourceEnv)
    (stats : CompilerStats)
    (hinv : stats.compile_failures + stats.compile_successes ≤ stats.compile_count) :
    ((compileSource b oq env stats).2.1.compile_failures
        + (compileSource b oq env stats).2.1.compile_successes
      ≤ (compileSource b oq env stats).2.1.compile_count)
    ∧ stats.compile_count ≤ (compileSource b oq env stats).2.1.compile_count
    ∧ stats.compile_failures ≤ (compileSource b oq env stats).2.1.compile_failures
    ∧ stats.compile_successes ≤ (compileSource b oq env stats).2.1.compile_successes
    ∧ (¬ (strToLower b ≠ "quick" ∧ oq = true) →
        (compileSource b oq env stats).2.1.compile_count = stats.compile_count + 1
        ∧ (compileSource b oq env stats).2.1.compile_failures
            + (compileSource b oq env stats).2.1.compile_successes
          ≤ stats.compile_failures + stats.compile_successes + 1)
    ∧ ((strToLower b ≠ "quick" ∧ oq = true) →
        (compileSource b oq env stats).2.1 = stats) := by
  rcases compileSource_stats_cases b oq env stats with ⟨hg, hs⟩ | ⟨hg, hs | hs | hs⟩ <;>
    rw [hs] <;> simp_all <;> omega

/-- Witness for C9 amended: a successful quick build starting from counters
`(3, 1, 2)`. -/
theorem c9_stats_amended_witness :
    ((1 : Nat) + 2 ≤ 3)
    ∧ (compileSource "quick" false ⟨"/t", ["sketch"], "", 0, true, none⟩
        ⟨3, 1, 2⟩).2.1.compile_count = 3 + 1 :=
  ⟨by decide,
    ((c9_stats_amended "quick" false ⟨"/t", ["sketch"], "", 0, true, none⟩
        ⟨3, 1, 2⟩ (by decide)).2.2.2.2.1 (by decide)).1⟩

/-- C6 counterexample: an extraction with two top-level entries
(`["sketch", "extra"]`) does not fail; the pipeline compiles the first entry
and returns the artifact with status 200. -/
theorem c6_multiple_toplevel_counterexample :
    (server_compile
        ⟨some "quick", none, true, some "sketch.zip", false, false, false, false, false, false⟩
        ⟨[], fun _ => none, false, false, [], [],
          ⟨"/t", ["sketch", "extra"], "", 0, true, none⟩⟩ ⟨0, 0, 0⟩).1
      = ServerResult.response 200 "fastled_output.zip"
    ∧ Ev.runCompiler ∈ (server_compile
        ⟨some "quick", none, true, some "sketch.zip", false, false, false, false, false, false⟩
        ⟨[], fun _ => none, false, false, [], [],
          ⟨"/t", ["sketch", "extra"], "", 0, true, none⟩⟩ ⟨0, 0, 0⟩).2.2 := by
  constructor <;> decide

/-- C6 amended: only an extraction with zero top-level entries fails (500,
"No files found"); with more than one top-level entry `_compile_source`
proceeds on the first entry, and the remaining entries do not influence the
result. -/
theorem c6_toplevel_amended (b : String) (oq : Bool) (env : SourceEnv)
    (stats : CompilerStats) (e : String) (rest : List String) :
    (¬ (strToLower b ≠ "quick" ∧ oq = true) →
      compileSource b oq { env with topLevelEntries := [] } stats
        = (.httpError 500
              ("No files found in extracted directory: " ++ env.temp_src_dir),
            { stats with compile_count := stats.compile_count + 1 }, []))
    ∧ compileSource b oq { env with topLevelEntries := e :: rest } stats
        = compileSource b oq { env with topLevelEntries := [e] } stats := by
  constructor
  · intro hg
    simp [compileSource, hg]
  · unfold compileSource
    by_cases hg : strToLower b ≠ "quick" ∧ oq = true <;> simp [hg]

/-- Witness for C6 amended: the empty extraction of a quick build yields the
500 and bumps only `compile_count`. -/
theorem c6_toplevel_amended_witness :
    compileSource "quick" false
        { temp_src_dir := "/t", topLevelEntries := ([] : List String), stdout := "",
          compilerExitCode := 0, fastledJsExists := true, zipError := none } ⟨0, 0, 0⟩
      = (.httpError 500 "No files found in extracted directory: /t", ⟨1, 0, 0⟩, []) := by
  have h := (c6_toplevel_amended "quick" false
      ⟨"/t", ["x"], "", 0, true, none⟩ ⟨0, 0, 0⟩ "a" []).1 (by decide)
  simpa using h

theorem server_compile_valid (req : CompileRequest) (env : PipelineEnv)
    (stats : CompilerStats) (fname : String)
    (hb : req.build.map strToLower = some "quick"
        ∨ req.build.map strToLower = some "release"
        ∨ req.build.map strToLower = some "debug"
        ∨ req.build.map strToLower = none)
    (hf : req.fileProvided = true)
    (hfn : req.filename = some fname)
    (hzip : strEndsWith fname ".zip" = true) :
    server_compile req env stats =
      match cacheEntry req env with
      | some _ =>
          (.response 200 "fastled_output.zip", stats,
            preEvents req env ++ [.returnCached])
      | none =>
          match compileSource ((req.build.map strToLower).getD "quick")
              req.only_quick_builds env.srcEnv stats with
          | (.raised st d, stats2, tr) =>
              (.error st d, stats2, preEvents req env ++ tr)
          | (.httpError st d, stats2, tr) =>
              (.error st d, stats2, preEvents req env ++ tr)
          | (.ok fn, stats2, tr) =>
              (.response 200 fn, stats2,
                preEvents req env ++ tr ++ putEvents req env) := by
  unfold server_compile
  rw [if_neg (not_not_intro hb), if_neg (by simp [hf])]
  simp only [hfn]
  rw [if_neg (by simp [hzip])]

theorem preEvents_shape (req : CompileRequest) (env : PipelineEnv) :
    ∃ mid, preEvents req env
      = Ev.stripFiles (env.extractedFiles.filter
            (fun p => strEndsWith (fileName p) "platformio.ini"))
        :: Ev.fingerprint (stripPlatformioFiles env.extractedFiles) :: mid :=
  ⟨_, rfl⟩

/-- C7 counterexample: on a quick-only server, a `release` request whose
fingerprint is in the sketch cache is answered with the cached artifact
(status 200) instead of the 400 rejection. -/
theorem c7_quick_only_cache_counterexample :
    (server_compile
        ⟨some "release", none, true, some "a.zip", true, true, false, false, false, false⟩
        ⟨[], fun _ => some "h", false, false, [], [("h", 1)],
          ⟨"/t", ["s"], "", 0, true, none⟩⟩ ⟨0, 0, 0⟩).1
      = ServerResult.response 200 "fastled_output.zip"
    ∧ Ev.returnCached ∈ (server_compile
        ⟨some "release", none, true, some "a.zip", true, true, false, false, false, false⟩
        ⟨[], fun _ => some "h", false, false, [], [("h", 1)],
          ⟨"/t", ["s"], "", 0, true, none⟩⟩ ⟨0, 0, 0⟩).2.2 := by
  constructor <;> decide

/-- C7 amended: on a quick-only server a `release`/`debug` request is
rejected with 400 "Only quick builds are allowed in this version." and no
toolchain run or lock acquisition happens, unless the sketch cache holds the
request's fingerprint, in which case the cached artifact is returned with
status 200. -/
theorem c7_quick_only_amended (req : CompileRequest) (env : PipelineEnv)
    (stats : CompilerStats) (fname : String)
    (hb : req.build = some "release" ∨ req.build = some "debug")
    (hoq : req.only_quick_builds = true)
    (hf : req.fileProvided = true)
    (hfn : req.filename = some fname)
    (hzip : strEndsWith fname ".zip" = true) :
    (cacheEntry req env = none →
      (server_compile req env stats).1
          = ServerResult.error 400 only_quick_reject_detail
      ∧ Ev.lockAcquire ∉ (server_compile req env stats).2.2
      ∧ Ev.runCompiler ∉ (server_compile req env stats).2.2)
    ∧ (∀ v, cacheEntry req env = some v →
      (server_compile req env stats).1
          = ServerResult.response 200 "fastled_output.zip"
      ∧ Ev.returnCached ∈ (server_compile req env stats).2.2) := by
  have hb' : req.build.map strToLower = some "release"
      ∨ req.build.map strToLower = some "debug" := by
    rcases hb with hb | hb <;> rw [hb]
    · exact Or.inl rfl
    · exact Or.inr rfl
  have hval : req.build.map strToLower = some "quick"
      ∨ req.build.map strToLower = some "release"
      ∨ req.build.map strToLower = some "debug"
      ∨ req.build.map strToLower = none := by
    rcases hb' with h | h
    · exact Or.inr (Or.inl h)
    · exact Or.inr (Or.inr (Or.inl h))
  have heq := server_compile_valid req env stats fname hval hf hfn hzip
  have hguard : strToLower ((req.build.map strToLower).getD "quick") ≠ "quick" := by
    rcases hb' with h | h <;> rw [h] <;> decide
  have hcs : compileSource ((req.build.map strToLower).getD "quick")
      req.only_quick_builds env.srcEnv stats
      = (.raised 400 only_quick_reject_detail, stats, []) := by
    unfold compileSource
    rw [hoq, if_pos ⟨hguard, rfl⟩]
  obtain ⟨hp1, hp2, hp3⟩ := preEvents_no_lock_events req env
  constructor
  · intro hce
    simp only [heq, hce, hcs]
    exact ⟨trivial, by simp [hp1], by simp [hp2]⟩
  · intro v hce
    simp only [heq, hce]
    exact ⟨trivial, by simp⟩

/-- Witness for C7 amended: a `release` request on a quick-only server with
hashing failed (cache unusable) receives the 400 rejection. -/
theorem c7_quick_only_amended_witness :
    cacheEntry
        ⟨some "release", none, true, some "w.zip", false, true, false, false, false, false⟩
        ⟨[], fun _ => none, false, false, [], [], ⟨"/t", ["s"], "", 0, true, none⟩⟩
      = none
    ∧ (server_compile
        ⟨some "release", none, true, some "w.zip", false, true, false, false, false, false⟩
        ⟨[], fun _ => none, false, false, [], [], ⟨"/t", ["s"], "", 0, true, none⟩⟩
        ⟨0, 0, 0⟩).1 = ServerResult.error 400 only_quick_reject_detail :=
  ⟨by decide,
    ((c7_quick_only_amended
        ⟨some "release", none, true, some "w.zip", false, true, false, false, false, false⟩
        ⟨[], fun _ => none, false, false, [], [], ⟨"/t", ["s"], "", 0, true, none⟩⟩
        ⟨0, 0, 0⟩ "w.zip" (Or.inl rfl) rfl rfl rfl (by decide)).1 (by decide)).1⟩

/-- C10: a file of the extracted tree survives the stripping step iff its
name does not end with `platformio.ini` (so `my_platformio.ini` is deleted
too, and nothing else is), and on every validated request the pipeline
records the stripping event and then fingerprints exactly the stripped
tree. -/
theorem c10_platformio_strip (files : List FPath) (p : FPath)
    (req : CompileRequest) (env : PipelineEnv) (stats : CompilerStats)
    (fname : String)
    (hb : req.build = none ∨ req.build = some "quick"
        ∨ req.build = some "release" ∨ req.build = some "debug")
    (hf : req.fileProvided = true)
    (hfn : req.filename = some fname)
    (hzip : strEndsWith fname ".zip" = true) :
    (p ∈ stripPlatformioFiles files
      ↔ p ∈ files ∧ strEndsWith (fileName p) "platformio.ini" = false)
    ∧ ∃ rest, (server_compile req env stats).2.2
        = Ev.stripFiles (env.extractedFiles.filter
              (fun q => strEndsWith (fileName q) "platformio.ini"))
          :: Ev.fingerprint (stripPlatformioFiles env.extractedFiles) :: rest := by
  constructor
  · simp [stripPlatformioFiles, List.mem_filter]
  · have hval : req.build.map strToLower = some "quick"
        ∨ req.build.map strToLower = some "release"
        ∨ req.build.map strToLower = some "debug"
        ∨ req.build.map strToLower = none := by
      rcases hb with hb | hb | hb | hb <;> rw [hb]
      · exact Or.inr (Or.inr (Or.inr rfl))
      · exact Or.inl rfl
      · exact Or.inr (Or.inl rfl)
      · exact Or.inr (Or.inr (Or.inl rfl))
    obtain ⟨mid, hmid⟩ := preEvents_shape req env
    rw [server_compile_valid req env stats fname hval hf hfn hzip]
    cases hce : cacheEntry req env with
    | some v => exact ⟨mid ++ [Ev.returnCached], by rw [hmid]; rfl⟩
    | none =>
        rcases hcs : compileSource ((req.build.map strToLower).getD "quick")
            req.only_quick_builds env.srcEnv stats with ⟨o, stats2, tr⟩
        cases o with
        | raised st d => exact ⟨mid ++ tr, by rw [hmid]; rfl⟩
        | httpError st d => exact ⟨mid ++ tr, by rw [hmid]; rfl⟩
        | ok fn => exact ⟨(mid ++ tr) ++ putEvents req env, by rw [hmid]; rfl⟩

/-- Witness for C10: `wasm/my_platformio.ini` is stripped (its name ends with
the suffix without being exactly `platformio.ini`) while `wasm/src.ino`
survives, and a concrete validated request fingerprints the stripped tree. -/
theorem c10_platformio_strip_witness :
    ("wasm/my_platformio.ini"
        ∈ stripPlatformioFiles
            ["wasm/platformio.ini", "wasm/my_platformio.ini", "wasm/src.ino"]
      ↔ ("wasm/my_platformio.ini"
            ∈ ["wasm/platformio.ini", "wasm/my_platformio.ini", "wasm/src.ino"]
          ∧ strEndsWith (fileName "wasm/my_platformio.ini") "platformio.ini" = false))
    ∧ ∃ rest, (server_compile
          ⟨none, none, true, some "b.zip", false, false, false, false, false, false⟩
          ⟨["wasm/platformio.ini", "wasm/my_platformio.ini", "wasm/src.ino"],
            fun _ => none, false, false, [], [], ⟨"/t", ["s"], "", 0, true, none⟩⟩
          ⟨0, 0, 0⟩).2.2
        = Ev.stripFiles
              (["wasm/platformio.ini", "wasm/my_platformio.ini",
                  "wasm/src.ino"].filter
                (fun q => strEndsWith (fileName q) "platformio.ini"))
          :: Ev.fingerprint
              (stripPlatformioFiles
                ["wasm/platformio.ini", "wasm/my_platformio.ini", "wasm/src.ino"])
          :: rest :=
  c10_platformio_strip
    ["wasm/platformio.ini", "wasm/my_platformio.ini", "wasm/src.ino"]
    "wasm/my_platformio.ini"
    ⟨none, none, true, some "b.zip", false, false, false, false, false, false⟩
    ⟨["wasm/platformio.ini", "wasm/my_platformio.ini", "wasm/src.ino"],
      fun _ => none, false, false, [], [], ⟨"/t", ["s"], "", 0, true, none⟩⟩
    ⟨0, 0, 0⟩ "b.zip" (Or.inl rfl) rfl rfl (by decide)

/-- C3 counterexample: a `/compile/wasm` request with no authorization header
is not rejected with 401 — it runs the toolchain and returns the artifact
with status 200, and the result is identical under a wrong token. -/
theorem c3_no_auth_check_counterexample :
    (compile_wasm_endpoint none
        ⟨some "quick", none, true, some "s.zip", false, false, false, false, false, false⟩
        ⟨[], fun _ => none, false, false, [], [], ⟨"/t", ["sk"], "", 0, true, none⟩⟩
        ⟨0, 0, 0⟩).1 = ServerResult.response 200 "fastled_output.zip"
    ∧ Ev.runCompiler ∈ (compile_wasm_endpoint none
        ⟨some "quick", none, true, some "s.zip", false, false, false, false, false, false⟩
        ⟨[], fun _ => none, false, false, [], [], ⟨"/t", ["sk"], "", 0, true, none⟩⟩
        ⟨0, 0, 0⟩).2.2
    ∧ compile_wasm_endpoint none
        ⟨some "quick", none, true, some "s.zip", false, false, false, false, false, false⟩
        ⟨[], fun _ => none, false, false, [], [], ⟨"/t", ["sk"], "", 0, true, none⟩⟩
        ⟨0, 0, 0⟩
      = compile_wasm_endpoint (some "wrong-token")
        ⟨some "quick", none, true, some "s.zip", false, false, false, false, false, false⟩
        ⟨[], fun _ => none, false, false, [], [], ⟨"/t", ["sk"], "", 0, true, none⟩⟩
        ⟨0, 0, 0⟩ := by
  refine ⟨by decide, by decide, rfl⟩

/-- C3 amended: the `/compile/wasm` handler performs no authorization check
(its result is independent of the authorization header), while
`/compile/libfastled` rejects every authorization value other than the shared
token with 401 and accepts the token. -/
theorem c3_auth_amended :
    (∀ (a b : Option String) (req : CompileRequest) (env : PipelineEnv)
        (stats : CompilerStats),
      compile_wasm_endpoint a req env stats = compile_wasm_endpoint b req env stats)
    ∧ (∀ a, a ≠ some AUTH_TOKEN → compile_libfastled_auth a = some 401)
    ∧ compile_libfastled_auth (some AUTH_TOKEN) = none := by
  refine ⟨fun a b req env stats => rfl, ?_, by simp [compile_libfastled_auth]⟩
  intro a ha
  simp [compile_libfastled_auth, ha]

/-- Witness for C3 amended: the missing authorization header is rejected by
the `/compile/libfastled` guard with 401. -/
theorem c3_auth_amended_witness :
    (none : Option String) ≠ some AUTH_TOKEN
    ∧ compile_libfastled_auth none = some 401 :=
  ⟨by simp, c3_auth_amended.2.1 none (by simp)⟩

/-- C4: every `/compile/libfastled` stream, whatever the body outcome, ends
with exactly the four trailer events in order — `COMPILATION_COMPLETE`,
`EXIT_CODE: n`, `STATUS: SUCCESS` or `STATUS: FAIL`, and `HTTP_STATUS: c`
with `c = 200` when `n = 0`, `400` when `n = 1`, and `500` otherwise — and
`STATUS` is `SUCCESS` exactly when the exit code is 0. -/
theorem c4_libfastled_trailer (buildMode : String) (o : StreamOutcome) :
    ∃ (pre : List String) (exitCode : Int) (status : String),
      stream_compilation buildMode o
        = pre ++ ["data: COMPILATION_COMPLETE\n",
            "data: EXIT_CODE: " ++ toString exitCode ++ "\n",
            "data: STATUS: " ++ status ++ "\n",
            "data: HTTP_STATUS: "
              ++ toString (if exitCode = 0 then (200 : Nat)
                  else if exitCode = 1 then 400 else 500)
              ++ "\n"]
      ∧ (status = "SUCCESS" ∨ status = "FAIL")
      ∧ (status = "SUCCESS" ↔ exitCode = 0) := by
  cases o with
  | dryRun =>
      exact ⟨["data: Using BUILD_MODE: " ++ buildMode ++ "\n",
          "data: DRY RUN MODE: Will skip actual compilation\n",
          "data: Would compile libfastled with BUILD_MODE=" ++ buildMode ++ "\n"],
        0, "SUCCESS", rfl, Or.inl rfl, by simp⟩
  | updateOk progress duration =>
      refine ⟨["data: Using BUILD_MODE: " ++ buildMode ++ "\n",
          "data: Checking for source file changes...\n"]
        ++ progress.map (fun m => "data: " ++ m ++ "\n")
        ++ ["data: Source update completed in " ++ duration ++ " seconds\n",
            "data: LibFastLED compilation completed successfully!\n"],
        0, "SUCCESS", ?_, Or.inl rfl, by simp⟩
      simp [stream_compilation, trailerEvents]
  | updateRaise progress errMsg details =>
      refine ⟨["data: Using BUILD_MODE: " ++ buildMode ++ "\n",
          "data: Checking for source file changes...\n"]
        ++ progress.map (fun m => "data: " ++ m ++ "\n")
        ++ ["data: ERROR: Source update or compilation failed: " ++ errMsg ++ "\n"]
        ++ details.map (fun d => "data: " ++ d ++ "\n"),
        1, "FAIL", ?_, Or.inr rfl, by decide⟩
      simp [stream_compilation, trailerEvents]
  | outerError pre errMsg stackTrace =>
      refine ⟨pre ++ ["data: ERROR: " ++ errMsg ++ "\n",
          "data: Stack trace: " ++ stackTrace ++ "\n"],
        -1, "FAIL", ?_, Or.inr rfl, by decide⟩
      simp [stream_compilation, trailerEvents]

/-- C8: a POST `/compile/wasm` request is rejected with 413 and the
message directing large assets to a data directory exactly when its declared `content-length` exceeds
the limit; a request with no `content-length` is forwarded; and every
rejection the middleware ever produces is that 413 on a POST whose path
contains `/compile/wasm` with an oversized declared length. -/
theorem c8_upload_guard (maxUpload : Nat) (cl : Option Nat) :
    (uploadSizeDispatch maxUpload ⟨"POST", "/compile/wasm", cl⟩
        = MWResult.reject 413 (uploadLimitMessage maxUpload)
      ↔ ∃ n, cl = some n ∧ maxUpload < n)
    ∧ uploadSizeDispatch maxUpload ⟨"POST", "/compile/wasm", none⟩ = MWResult.forward
    ∧ (∀ req st b, uploadSizeDispatch maxUpload req = MWResult.reject st b →
        st = 413 ∧ b = uploadLimitMessage maxUpload
        ∧ req.method = "POST"
        ∧ containsSubstr req.urlPath "/compile/wasm" = true
        ∧ ∃ n, req.contentLength = some n ∧ maxUpload < n) := by
  have hsub : containsSubstr "/compile/wasm" "/compile/wasm" = true := by decide
  refine ⟨?_, ?_, ?_⟩
  · cases cl with
    | none => simp [uploadSizeDispatch, hsub]
    | some n =>
        by_cases hn : n > maxUpload <;>
          simp [uploadSizeDispatch, hsub, hn]
  · simp [uploadSizeDispatch, hsub]
  · intro req st b h
    unfold uploadSizeDispatch at h
    by_cases hcond : req.method = "POST" ∧ containsSubstr req.urlPath "/compile/wasm"
    · rw [if_pos hcond] at h
      cases hcl : req.contentLength with
      | none => simp [hcl] at h
      | some n =>
          simp only [hcl] at h
          by_cases hn : n > maxUpload
          · rw [if_pos hn] at h
            obtain ⟨h1, h2⟩ := MWResult.reject.inj h.symm
            exact ⟨h1, h2, hcond.1, hcond.2, n, rfl, hn⟩
          · rw [if_neg hn] at h
            simp at h
    · rw [if_neg hcond] at h
      simp at h

/-- Witness for C8 at limit 10 and declared length 11: the middleware
rejects with 413 and the message directing large assets to a data directory. -/
theorem c8_upload_guard_witness :
    uploadSizeDispatch 10 ⟨"POST", "/compile/wasm", some 11⟩
      = MWResult.reject 413 (uploadLimitMessage 10) :=
  (c8_upload_guard 10 (some 11)).1.mpr ⟨11, rfl, by decide⟩

end FastledWasm
